import Mathlib

/-!
Shallow embedding of the workout-tracking core of `src/script.js` (the Mapty
application): the `Workout` / `Running` / `Cycling` class hierarchy, the
`App` session state (`#map`, `#workouts`, rendered list entries, local
storage), and the operations `_newWorkout`, `_removeWorkout`,
`_setLocalStorage`, `_getLocalStorage`.

Modelling conventions:
- JavaScript numbers reaching the constructors are finite (the code validates
  them with `Number.isFinite` first), so record fields are rationals.  Raw
  form inputs, which may be `NaN` or infinite, are modelled by `JSNum`.
- A `Date` object is modelled by the observable values the code reads from
  it: `getTime`/`Date.now()` milliseconds, `getMonth()` (0-11) and
  `getDate()`.  The host clock is passed explicitly to the constructors.
- JS objects carry a prototype.  `JSON.parse` produces plain objects (base
  `Object` prototype, no class methods); records built by the `Running` /
  `Cycling` constructors carry their class prototype.  The `proto` field
  records this.
- `JSON.stringify` omits properties whose value is `undefined` (modelled by
  `Option`), and throws `TypeError: Converting circular structure to JSON`
  when it meets a Leaflet marker handle (a marker added to a map is cyclic:
  `marker._map._layers` contains the marker).  The source itself records
  this at the `_removeWorkout` save call:
  `// TODO TypeError: Converting circular structure to JSON`.
- The string stored in local storage is modelled at the JSON-document level:
  `RawBlob.arr` is a well-formed JSON array of workout records, carrying its
  decoded content; `RawBlob.nullDoc` is a well-formed document that parses to
  a falsy value (`"null"` etc.; also the result of `JSON.parse(null)` when
  the key is absent); `RawBlob.malformed` is a text that is not parseable
  JSON (this includes the empty string), on which `JSON.parse` throws a
  SyntaxError.  `JSON.parse (JSON.stringify v) = v` for representable values
  is a host guarantee and is built into this data-level model.
-/

namespace Mapty

/-- Host errors that the code can throw. -/
inductive JsError where
  /-- `TypeError: Converting circular structure to JSON` from `JSON.stringify`. -/
  | circularStructure
  /-- SyntaxError thrown by `JSON.parse` on unparseable text. -/
  | parseError
deriving DecidableEq

/-- A JavaScript number as read from a form input (`+inputDistance.value`):
either a finite value, `NaN`, or an infinity. -/
inductive JSNum where
  | finite (q : ℚ)
  | nan
  | posInf
  | negInf
deriving DecidableEq

/-- `Number.isFinite`. -/
def isFinite : JSNum → Bool
  | .finite _ => true
  | _ => false

/-- The JS comparison `input > 0` (`NaN > 0` is false, `Infinity > 0` is true). -/
def jsPos : JSNum → Bool
  | .finite q => decide (0 < q)
  | .posInf => true
  | _ => false

/-- `script.js:135` — `const validInputs = (...inputs) => inputs.every(input => Number.isFinite(input))`. -/
def validInputs (inputs : List JSNum) : Bool := inputs.all isFinite

/-- `script.js:136` — `const isPositiveInputs = (...inputs) => inputs.every(input => input > 0)`. -/
def isPositiveInputs (inputs : List JSNum) : Bool := inputs.all jsPos

/-- The finite value of a validated input (only applied after `validInputs`). -/
def toQ : JSNum → ℚ
  | .finite q => q
  | _ => 0

/-- The observable values the code reads from a host `Date` object:
`getTime()` milliseconds, `getMonth()` (0-11), `getDate()`. -/
structure JsDate where
  ms : ℕ
  month : Fin 12
  day : ℕ
deriving DecidableEq

/-- A record's `date` property: a live `Date` object when built by a
constructor, or the ISO string a `Date` becomes after a `JSON.stringify` /
`JSON.parse` round trip. -/
inductive DateVal where
  | dateObj (d : JsDate)
  | str (s : String)
deriving DecidableEq

/-- Injective model of `Date.prototype.toISOString` (an ISO-8601 string
determines the millisecond value; only injectivity matters here). -/
def isoEnc (ms : ℕ) : String := "ISO:" ++ Nat.repr ms

/-- `JSON.stringify` of a `date` property: a `Date` serializes via
`toISOString`; a string serializes to itself. -/
def dateToJson : DateVal → String
  | .dateObj d => isoEnc d.ms
  | .str s => s

/-- The prototype of a JS object: set by the `Running` / `Cycling`
constructors, or the base `Object` prototype of anything built by
`JSON.parse` (plain objects have no class methods). -/
inductive Proto where
  | running
  | cycling
  | plainObject
deriving DecidableEq

/-- A workout object (`script.js:11-63`).  Kind-specific properties are
`Option`s (`undefined` when absent); `marker` (`script.js:14`) holds the
Leaflet marker handle once `_renderWorkoutMarker` has run, modelled as an
opaque numeric handle. -/
structure Workout where
  proto : Proto
  id : String
  date : DateVal
  coords : ℚ × ℚ
  distance : ℚ
  duration : ℚ
  type : String
  description : String
  cadence : Option ℚ
  pace : Option ℚ
  elevationGain : Option ℚ
  speed : Option ℚ
  marker : Option ℕ
deriving DecidableEq

/-- `script.js:13` — `(Date.now() + '').slice(-10)`: `String.prototype.slice(-10)`
keeps the last ten characters (the whole string when shorter). -/
def lastTen (s : String) : String := s.drop (s.length - 10)

/-- Identifier generation at construction time (`script.js:13`). -/
def genId (nowMs : ℕ) : String := lastTen (Nat.repr nowMs)

/-- `script.js:24` — the month-name array of `_setDescription`. -/
def months : List String :=
  ["January", "February", "March", "April", "May", "June", "July", "August",
   "September", "October", "November", "December"]

/-- JS `String.prototype.toUpperCase` on one character, for the ASCII range
(`script.js:26` only ever applies it to `'r'` / `'c'`). -/
def charUpper (c : Char) : Char :=
  if c.toNat ≥ 97 ∧ c.toNat ≤ 122 then Char.ofNat (c.toNat - 32) else c

/-- `type[0].toUpperCase() + type.slice(1)` (`script.js:26`), modelled on
the character list (empty strings do not occur: `type` is
`'running'`/`'cycling'`). -/
def capitalize (s : String) : String :=
  match s.data with
  | [] => s
  | c :: rest => String.mk (charUpper c :: rest)

/-- `script.js:22-29` — `_setDescription`: builds
`"<Capitalized type> on <months[getMonth()]> <getDate()>"`. -/
def setDescription (type : String) (date : JsDate) : String :=
  capitalize type ++ " on " ++ months.getD date.month.val "" ++ " " ++ Nat.repr date.day

/-- `script.js:42-46` — `calcPace`: `this.pace = this.duration / this.distance`. -/
def calcPace (distance duration : ℚ) : ℚ := duration / distance

/-- `script.js:58-62` — `calcSpeed`: `this.speed = this.distance / (this.duration / 60)`. -/
def calcSpeed (distance duration : ℚ) : ℚ := distance / (duration / 60)

/-- The `Running` constructor (`script.js:32-47`): base fields from
`Workout` (`date`, `id`, `marker` undefined, coords, distance, duration),
then `cadence`, `calcPace()`, `_setDescription()`.  `now` is the host clock
at construction. -/
def mkRunning (now : JsDate) (coords : ℚ × ℚ) (distance duration cadence : ℚ) : Workout :=
  { proto := .running
    id := genId now.ms
    date := .dateObj now
    coords := coords
    distance := distance
    duration := duration
    type := "running"
    description := setDescription "running" now
    cadence := some cadence
    pace := some (calcPace distance duration)
    elevationGain := none
    speed := none
    marker := none }

/-- The `Cycling` constructor (`script.js:48-63`): base fields, then
`elevationGain`, `calcSpeed()`, `_setDescription()`. -/
def mkCycling (now : JsDate) (coords : ℚ × ℚ) (distance duration elevationGain : ℚ) : Workout :=
  { proto := .cycling
    id := genId now.ms
    date := .dateObj now
    coords := coords
    distance := distance
    duration := duration
    type := "cycling"
    description := setDescription "cycling" now
    cadence := none
    pace := none
    elevationGain := some elevationGain
    speed := some (calcSpeed distance duration)
    marker := none }

/-- The JSON object `JSON.stringify` produces for one workout record:
every own enumerable property whose value is defined, which is every field
of `Workout` except a `marker` that is `undefined` (and `proto`, which is
not an own property).  There is no marker field in the stored form. -/
structure StoredWorkout where
  id : String
  date : String
  coords : ℚ × ℚ
  distance : ℚ
  duration : ℚ
  type : String
  description : String
  cadence : Option ℚ
  pace : Option ℚ
  elevationGain : Option ℚ
  speed : Option ℚ
deriving DecidableEq

/-- The stored (JSON) form of a marker-free record. -/
def toStored (w : Workout) : StoredWorkout :=
  { id := w.id
    date := dateToJson w.date
    coords := w.coords
    distance := w.distance
    duration := w.duration
    type := w.type
    description := w.description
    cadence := w.cadence
    pace := w.pace
    elevationGain := w.elevationGain
    speed := w.speed }

/-- `JSON.stringify` of one workout: when `marker` is `undefined` it is
omitted and the remaining fields are written; when a Leaflet marker handle
is attached the traversal meets the cyclic `marker._map._layers` structure
and throws (the TypeError the source records at `script.js:209`). -/
def stringifyWorkout (w : Workout) : Except JsError StoredWorkout :=
  match w.marker with
  | none => .ok (toStored w)
  | some _ => .error .circularStructure

/-- `JSON.stringify(this.#workouts)` (`script.js:302`): serializes the array
elementwise, propagating a thrown TypeError. -/
def stringifyWorkouts : List Workout → Except JsError (List StoredWorkout)
  | [] => .ok []
  | w :: ws =>
    match stringifyWorkout w with
    | .error e => .error e
    | .ok s =>
      match stringifyWorkouts ws with
      | .error e => .error e
      | .ok rest => .ok (s :: rest)

/-- What `JSON.parse` yields for one stored record: a plain object (base
`Object` prototype — the class prototype is not restored), with the `date`
property left as its ISO string and no `marker` property. -/
def parseStored (s : StoredWorkout) : Workout :=
  { proto := .plainObject
    id := s.id
    date := .str s.date
    coords := s.coords
    distance := s.distance
    duration := s.duration
    type := s.type
    description := s.description
    cadence := s.cadence
    pace := s.pace
    elevationGain := s.elevationGain
    speed := s.speed
    marker := none }

/-- `JSON.parse` of a stored workouts array (`script.js:306`), at the
data level. -/
def deserializeBlob (b : List StoredWorkout) : List Workout := b.map parseStored

/-- The effect of a full `JSON.stringify`/`JSON.parse` round trip on one
marker-free record: all persisted fields survive, the prototype becomes the
plain base `Object`, the `date` becomes its string form. -/
def plainify (w : Workout) : Workout :=
  { proto := .plainObject
    id := w.id
    date := .str (dateToJson w.date)
    coords := w.coords
    distance := w.distance
    duration := w.duration
    type := w.type
    description := w.description
    cadence := w.cadence
    pace := w.pace
    elevationGain := w.elevationGain
    speed := w.speed
    marker := none }

/-- The text under the `'workouts'` local-storage key, at the JSON-document
level. -/
inductive RawBlob where
  /-- A well-formed JSON array of workout records (what `_setLocalStorage` writes). -/
  | arr (records : List StoredWorkout)
  /-- A well-formed JSON document parsing to a falsy value (e.g. `"null"`). -/
  | nullDoc
  /-- Text that is not parseable JSON (includes the empty string); `JSON.parse` throws. -/
  | malformed (text : String)
deriving DecidableEq

/-- The session state of the `App` instance (`script.js:66-70` plus the
external local storage and the rendered list): `#map` is `undefined` until
`_loadMap` runs; `#workouts` starts empty; `listEntries` are the ids of the
rendered `<li>` entries, newest first; `nextHandle` allocates fresh opaque
marker handles. -/
structure AppState where
  map : Option ℕ
  workouts : List Workout
  listEntries : List String
  storage : Option RawBlob
  nextHandle : ℕ
deriving DecidableEq

/-- The state at `new App()` before `_getLocalStorage` runs, given the
pre-existing local-storage content. -/
def initialState (storage : Option RawBlob) : AppState :=
  { map := none, workouts := [], listEntries := [], storage := storage, nextHandle := 0 }

/-- `script.js:301-303` — `_setLocalStorage`:
`localStorage.setItem('workouts', JSON.stringify(this.#workouts))`.
A TypeError thrown by `JSON.stringify` propagates uncaught; on success the
blob is stored. -/
def setLocalStorage (st : AppState) : Except JsError AppState :=
  match stringifyWorkouts st.workouts with
  | .error e => .error e
  | .ok b => .ok { st with storage := some (.arr b) }

/-- `script.js:305-315` — `_getLocalStorage`: parse the stored text
(`JSON.parse(localStorage.getItem('workouts'))`; an absent key gives
`JSON.parse(null) = null`), return early on a falsy result, otherwise
assign the parsed array to `#workouts` unvalidated and render a list entry
for each element.  A SyntaxError from `JSON.parse` propagates uncaught. -/
def getLocalStorage (st : AppState) : Except JsError AppState :=
  match st.storage with
  | none => .ok st
  | some .nullDoc => .ok st
  | some (.malformed _) => .error .parseError
  | some (.arr b) =>
    let ws := b.map parseStored
    .ok { st with workouts := ws, listEntries := (ws.map (·.id)).reverse ++ st.listEntries }

/-- Outcome of the `_newWorkout` handler (`script.js:134-183`). -/
inductive NewOutcome where
  /-- The validation guard fired: `alert('Inputs have to be a positive number!')`
  and early return, before the push. -/
  | rejected (st : AppState)
  /-- The type string matched neither branch; `workout` stays `undefined`
  (unreachable through the two-option select). -/
  | undefinedWorkout (st : AppState)
  /-- `#map` is `undefined`: the record was pushed, then
  `L.marker(coords).addTo(undefined)` threw in `_renderWorkoutMarker`. -/
  | noMap (st : AppState)
  /-- The record was pushed, its marker placed and its entry rendered, but
  `_setLocalStorage` threw (`JSON.stringify` met the marker handle). -/
  | persistFault (st : AppState)
  /-- The full pipeline ran and the blob was stored. -/
  | saved (st : AppState)
deriving DecidableEq

/-- `script.js:170-182` — the pipeline after a workout object is built:
`#workouts.push(workout)`, `_renderWorkoutMarker(workout)` (sets
`workout.marker` on the pushed object; needs `#map`),
`_renderWorkout(workout)` (prepends a list entry), `_setLocalStorage()`. -/
def pushAndRender (st : AppState) (w : Workout) : NewOutcome :=
  match st.map with
  | none => .noMap { st with workouts := st.workouts ++ [w] }
  | some _ =>
    let w' := { w with marker := some st.nextHandle }
    let st1 : AppState :=
      { st with
        workouts := st.workouts ++ [w']
        listEntries := w.id :: st.listEntries
        nextHandle := st.nextHandle + 1 }
    match stringifyWorkouts st1.workouts with
    | .error _ => .persistFault st1
    | .ok b => .saved { st1 with storage := some (.arr b) }

/-- `script.js:134-183` — `_newWorkout`: read the form values, branch on the
type string, apply the validation guards exactly as written
(running: `!validInputs(distance, duration, cadence) ||
!isPositiveInputs(distance, duration, cadence)`; cycling:
`!validInputs(distance, duration, elevationGain) ||
!isPositiveInputs(distance, duration)`), construct the record, then run the
push/render/persist pipeline. -/
def appNewWorkout (st : AppState) (type : String) (now : JsDate) (latlng : ℚ × ℚ)
    (distance duration cadence elevation : JSNum) : NewOutcome :=
  if type == "running" then
    if !validInputs [distance, duration, cadence]
        || !isPositiveInputs [distance, duration, cadence] then
      .rejected st
    else
      pushAndRender st (mkRunning now latlng (toQ distance) (toQ duration) (toQ cadence))
  else if type == "cycling" then
    if !validInputs [distance, duration, elevation]
        || !isPositiveInputs [distance, duration] then
      .rejected st
    else
      pushAndRender st (mkCycling now latlng (toQ distance) (toQ duration) (toQ elevation))
  else
    .undefinedWorkout st

/-- Outcome of the `_removeWorkout` handler (`script.js:189-212`). -/
inductive RemoveOutcome where
  /-- `#workouts.find(...)` returned `undefined`: `if (!workout) return;` —
  nothing was touched. -/
  | notFound (st : AppState)
  /-- The record was spliced out and its entry removed, then
  `workout.marker.remove()` threw a TypeError on the `undefined` marker;
  `_setLocalStorage` was never reached. -/
  | markerFault (st : AppState)
  /-- Splice, entry removal and `marker.remove()` succeeded, but
  `_setLocalStorage` threw (circular structure). -/
  | persistFault (st : AppState)
  /-- The whole handler ran and the new blob was stored. -/
  | ok (st : AppState)
deriving DecidableEq

/-- `script.js:189-212` — `_removeWorkout`, taken from the point where the
clicked element's `data-id` has been resolved to `wid` (the DOM lookup is
view glue): `find` the record by id, return if absent; otherwise
`indexOf`/`splice(index, 1)` (the `index > -1` guard always holds here),
remove the list entry, call `workout.marker.remove()` (throws when the
marker was never set), then `_setLocalStorage()`. -/
def removeWorkout (wid : String) (st : AppState) : RemoveOutcome :=
  match st.workouts.find? (fun w => w.id == wid) with
  | none => .notFound st
  | some w =>
    let i := st.workouts.findIdx (fun w => w.id == wid)
    let st1 : AppState :=
      { st with
        workouts := st.workouts.eraseIdx i
        listEntries := st.listEntries.erase wid }
    match w.marker with
    | none => .markerFault st1
    | some _ =>
      match stringifyWorkouts st1.workouts with
      | .error _ => .persistFault st1
      | .ok b => .ok { st1 with storage := some (.arr b) }

/-- A creation request: the host clock at creation plus the form inputs
(already validated), for building stores by successive `create`/`append`. -/
inductive CreateKind where
  | running
  | cycling
deriving DecidableEq

/-- One validated creation (clock reading plus constructor arguments). -/
structure CreateInput where
  now : JsDate
  kind : CreateKind
  coords : ℚ × ℚ
  distance : ℚ
  duration : ℚ
  kindField : ℚ
deriving DecidableEq

/-- Dispatch a creation to the matching constructor. -/
def mkFromInput (i : CreateInput) : Workout :=
  match i.kind with
  | .running => mkRunning i.now i.coords i.distance i.duration i.kindField
  | .cycling => mkCycling i.now i.coords i.distance i.duration i.kindField

/-- The store produced by a sequence of create-then-append operations, in
order (`#workouts.push` appends; nothing else reorders). -/
def buildStore (inputs : List CreateInput) : List Workout := inputs.map mkFromInput

/-- Whether an `Except` completed without throwing. -/
def completes {α : Type} (x : Except JsError α) : Bool :=
  match x with
  | .ok _ => true
  | .error _ => false

/-- Demo running record created at clock reading 111 ms (id `"111"`),
March 3. -/
def wRun111 : Workout := mkRunning ⟨111, 2, 3⟩ (10, 20) 5 25 178

/-- Demo cycling record created at clock reading 222 ms (id `"222"`). -/
def wCyc222 : Workout := mkCycling ⟨222, 5, 14⟩ (30, 40) 20 60 300

/-- `wRun111` after `_renderWorkoutMarker` attached marker handle 0. -/
def wRun111m : Workout := { wRun111 with marker := some 0 }

/-- `wCyc222` after `_renderWorkoutMarker` attached marker handle 1. -/
def wCyc222m : Workout := { wCyc222 with marker := some 1 }

/-- A session holding two marker-free records (e.g. just after hydration,
before the map loads). -/
def stPlain : AppState :=
  { map := none, workouts := [wRun111, wCyc222], listEntries := ["222", "111"],
    storage := none, nextHandle := 0 }

/-- A live session: map loaded, both records rendered with markers, the
pre-marker blob still in storage. -/
def stMarked : AppState :=
  { map := some 99, workouts := [wRun111m, wCyc222m], listEntries := ["222", "111"],
    storage := some (.arr [toStored wRun111, toStored wCyc222]), nextHandle := 2 }

/-- A demo creation request at clock reading 111 ms. -/
def ci1 : CreateInput := ⟨⟨111, 2, 3⟩, .running, (10, 20), 5, 25, 178⟩

/-- A demo creation request at clock reading 222 ms. -/
def ci2 : CreateInput := ⟨⟨222, 5, 14⟩, .cycling, (30, 40), 20, 60, 300⟩

/-- A creation request in the same millisecond as `ci1` but for a different
workout. -/
def ci1b : CreateInput := ⟨⟨111, 2, 3⟩, .cycling, (30, 40), 20, 60, 300⟩

/-- `JSON.stringify` succeeds elementwise on a marker-free store and writes
each record's stored form in order. -/
theorem stringify_of_no_marker (ws : List Workout) (h : ∀ w ∈ ws, w.marker = none) :
    stringifyWorkouts ws = .ok (ws.map toStored) := by
  induction ws with
  | nil => rfl
  | cons w ws ih =>
    have hw : stringifyWorkout w = .ok (toStored w) := by
      unfold stringifyWorkout
      rw [h w (List.mem_cons_self w ws)]
    have hrest := ih (fun x hx => h x (List.mem_cons_of_mem w hx))
    simp only [stringifyWorkouts, hw, hrest, List.map_cons]

/-- Both constructors derive the id from the clock's millisecond reading. -/
theorem mkFromInput_id (i : CreateInput) : (mkFromInput i).id = genId i.now.ms := by
  cases h : i.kind <;> simp [mkFromInput, h, mkRunning, mkCycling]

/-- The push/render/persist pipeline never takes the rejection branch. -/
theorem pushAndRender_ne_rejected (st s : AppState) (w : Workout) :
    pushAndRender st w ≠ .rejected s := by
  unfold pushAndRender
  cases st.map with
  | none => simp
  | some m =>
    dsimp only
    split <;> simp

/-- `findIdx` lands inside the list whenever `find?` succeeds. -/
theorem findIdx_lt_length_of_find?_eq_some {α : Type} {p : α → Bool} {l : List α} {a : α}
    (h : l.find? p = some a) : l.findIdx p < l.length := by
  induction l with
  | nil => simp at h
  | cons x xs ih =>
    by_cases hx : p x
    · simp [List.findIdx_cons, hx]
    · have h' : xs.find? p = some a := by
        rw [List.find?_cons_of_neg _ hx] at h
        exact h
      rw [List.findIdx_cons]
      simp only [hx, cond_false]
      exact Nat.succ_lt_succ (ih h')

/-- C8: for all inputs with `distanceKm > 0` and `durationMin > 0`, the
metric calculators are pure and exact: `calcPace d t = t / d` and
`calcSpeed d t = d / (t / 60)`, with no rounding (the constructors store
exactly these values; rounding happens only in the view's `toFixed(1)`). -/
theorem c8_calculators_exact (d t : ℚ) (hd : 0 < d) (ht : 0 < t) :
    calcPace d t = t / d ∧
    calcSpeed d t = d / (t / 60) ∧
    (∀ now coords c, (mkRunning now coords d t c).pace = some (t / d)) ∧
    (∀ now coords e, (mkCycling now coords d t e).speed = some (d / (t / 60))) :=
  ⟨rfl, rfl, fun _ _ _ => rfl, fun _ _ _ => rfl⟩

/-- Witness for C8 at the spec's own examples: distance 5, duration 25
gives pace 5; distance 20, duration 60 gives speed 20. -/
theorem c8_calculators_exact_witness :
    (0 : ℚ) < 5 ∧ (0 : ℚ) < 25 ∧
    calcPace 5 25 = 25 / 5 ∧ calcSpeed 20 60 = 20 / (60 / 60) ∧
    calcPace 5 25 = 5 ∧ calcSpeed 20 60 = 20 :=
  ⟨by norm_num, by norm_num,
   (c8_calculators_exact 5 25 (by norm_num) (by norm_num)).1,
   (c8_calculators_exact 20 60 (by norm_num) (by norm_num)).2.1,
   by norm_num [calcPace], by norm_num [calcSpeed]⟩

/-- C9: for every kind and creation date, the constructed record's
description is `"<Capitalized kind> on <Month name> <day>"`, with the
English month names indexed 0-11 by `getMonth()`; a Running record created
on March 3 is described `"Running on March 3"`.  The description is set in
the constructor and (records being immutable values here, and never being
recomputed on restore) frozen thereafter. -/
theorem c9_description_format (now : JsDate) (coords : ℚ × ℚ) (d t k : ℚ) :
    (mkRunning now coords d t k).description =
      capitalize "running" ++ " on " ++ months.getD now.month.val "" ++ " " ++ Nat.repr now.day ∧
    (mkCycling now coords d t k).description =
      capitalize "cycling" ++ " on " ++ months.getD now.month.val "" ++ " " ++ Nat.repr now.day ∧
    capitalize "running" = "Running" ∧
    capitalize "cycling" = "Cycling" ∧
    months.getD (2 : Fin 12).val "" = "March" ∧
    (mkRunning ⟨1583193600000, 2, 3⟩ coords d t k).description = "Running on March 3" ∧
    (mkCycling ⟨1583193600000, 2, 3⟩ coords d t k).description = "Cycling on March 3" :=
  ⟨rfl, rfl, by decide, by decide, by decide, rfl, rfl⟩

/-- C3: `_newWorkout` validates asymmetrically, exactly as the source
guards are written — Running requires `distance`, `duration`, `cadence` all
finite (`validInputs`) and strictly positive (`isPositiveInputs`); Cycling
requires `distance`, `duration`, `elevationGain` finite but only
`distance`, `duration` positive.  When a guard fires the handler alerts and
returns the state untouched (`.rejected st` carries the unchanged state);
when the cycling guard passes (elevation of any sign), the handler is not
rejected. -/
theorem c3_validation_rejects (st : AppState) (type : String) (now : JsDate)
    (latlng : ℚ × ℚ) (d t c e : JSNum) :
    (type = "running" →
      (!validInputs [d, t, c] || !isPositiveInputs [d, t, c]) = true →
      appNewWorkout st type now latlng d t c e = .rejected st) ∧
    (type = "cycling" →
      (!validInputs [d, t, e] || !isPositiveInputs [d, t]) = true →
      appNewWorkout st type now latlng d t c e = .rejected st) ∧
    (type = "cycling" →
      validInputs [d, t, e] = true → isPositiveInputs [d, t] = true →
      appNewWorkout st type now latlng d t c e ≠ .rejected st) := by
  refine ⟨?_, ?_, ?_⟩
  · intro hty hg
    subst hty
    unfold appNewWorkout
    rw [if_pos (show ("running" == "running") = true from rfl), if_pos hg]
  · intro hty hg
    subst hty
    unfold appNewWorkout
    rw [if_neg (show ¬(("cycling" == "running") = true) from by decide),
        if_pos (show ("cycling" == "cycling") = true from rfl), if_pos hg]
  · intro hty hv hp
    subst hty
    unfold appNewWorkout
    rw [if_neg (show ¬(("cycling" == "running") = true) from by decide),
        if_pos (show ("cycling" == "cycling") = true from rfl),
        if_neg (show ¬((!validInputs [d, t, e] || !isPositiveInputs [d, t]) = true) from by
          simp [hv, hp])]
    exact pushAndRender_ne_rejected st st _

/-- Witness for C3: a Running submission with `distance = 0` (finite but
not positive) is rejected and the initial state is unchanged. -/
theorem c3_validation_rejects_witness :
    appNewWorkout (initialState none) "running" ⟨111, 2, 3⟩ (10, 20)
      (.finite 0) (.finite 25) (.finite 178) (.finite 0) =
      .rejected (initialState none) :=
  (c3_validation_rejects (initialState none) "running" ⟨111, 2, 3⟩ (10, 20)
      (.finite 0) (.finite 25) (.finite 178) (.finite 0)).1 rfl (by decide)

/-- C7: removing an id that no record carries takes the
`if (!workout) return;` branch: the handler reports not-found and the state
— in particular the workout sequence, its length, order and contents — is
exactly the one it started with. -/
theorem c7_remove_absent_noop (st : AppState) (wid : String)
    (h : ∀ w ∈ st.workouts, w.id ≠ wid) :
    removeWorkout wid st = .notFound st := by
  have hf : st.workouts.find? (fun w => w.id == wid) = none := by
    rw [List.find?_eq_none]
    intro w hw
    simpa using h w hw
  unfold removeWorkout
  rw [hf]

/-- Witness for C7: deleting the absent id `"zzz"` from a two-record
session is a no-op. -/
theorem c7_remove_absent_noop_witness :
    removeWorkout "zzz" stPlain = .notFound stPlain :=
  c7_remove_absent_noop stPlain "zzz" (by decide)

/-- C2 (amended): when no record carries a marker handle, serialization
produces the stored form of every persisted field of every record, in
insertion order, and the stored form is independent of the record's marker
field (`StoredWorkout` has no marker field at all); but once a marker
handle is attached, `JSON.stringify` throws a TypeError instead of
producing a blob, so serialization does not succeed "whether or not a
marker has been placed" — it is only true that no blob ever produced
contains a marker handle. -/
theorem c2_amended_serialize_excludes_marker (ws : List Workout)
    (h : ∀ w ∈ ws, w.marker = none) :
    stringifyWorkouts ws = .ok (ws.map toStored) ∧
    (∀ w m, toStored { w with marker := m } = toStored w) ∧
    (∀ w ∈ ws, (toStored w).id = w.id ∧ (toStored w).date = dateToJson w.date ∧
      (toStored w).coords = w.coords ∧ (toStored w).distance = w.distance ∧
      (toStored w).duration = w.duration ∧ (toStored w).type = w.type ∧
      (toStored w).description = w.description ∧ (toStored w).cadence = w.cadence ∧
      (toStored w).pace = w.pace ∧ (toStored w).elevationGain = w.elevationGain ∧
      (toStored w).speed = w.speed) :=
  ⟨stringify_of_no_marker ws h, fun _ _ => rfl,
   fun _ _ => ⟨rfl, rfl, rfl, rfl, rfl, rfl, rfl, rfl, rfl, rfl, rfl⟩⟩

/-- Witness for C2 (amended) on a one-record marker-free store. -/
theorem c2_amended_serialize_excludes_marker_witness :
    stringifyWorkouts [wRun111] = .ok [toStored wRun111] :=
  (c2_amended_serialize_excludes_marker [wRun111] (by decide)).1

/-- Counterexample to C2 as stated: for a record that has had a marker
placed (`wRun111m`), serialization does not produce a blob — it throws
`TypeError: Converting circular structure to JSON`. -/
theorem c2_counterexample_marker_breaks_serialize :
    stringifyWorkouts [wRun111m] = .error .circularStructure ∧
    completes (stringifyWorkouts [wRun111m]) = false :=
  ⟨rfl, rfl⟩

/-- C1 (amended): for a non-empty store in which no record has a marker
attached, serialize-then-deserialize yields, in insertion order, records
that agree with the originals in every persisted field (id, coordinates,
distance, duration, description, kind tag, kind-specific field, derived
pace/speed) and whose `date` is the original date's serialized string; but
every restored record is a plain `Object` (prototype `plainObject`), not a
`Running`/`Cycling` instance, so kind-specific access through the class
prototype is lost. -/
theorem c1_amended_roundtrip (ws : List Workout) (hne : ws ≠ [])
    (h : ∀ w ∈ ws, w.marker = none) :
    stringifyWorkouts ws = .ok (ws.map toStored) ∧
    deserializeBlob (ws.map toStored) = ws.map plainify ∧
    ∀ w ∈ ws, (plainify w).id = w.id ∧ (plainify w).date = .str (dateToJson w.date) ∧
      (plainify w).coords = w.coords ∧ (plainify w).distance = w.distance ∧
      (plainify w).duration = w.duration ∧ (plainify w).type = w.type ∧
      (plainify w).description = w.description ∧ (plainify w).cadence = w.cadence ∧
      (plainify w).pace = w.pace ∧ (plainify w).elevationGain = w.elevationGain ∧
      (plainify w).speed = w.speed ∧ (plainify w).proto = .plainObject ∧
      (plainify w).marker = none := by
  refine ⟨stringify_of_no_marker ws h, ?_, ?_⟩
  · rw [deserializeBlob, List.map_map]
    congr 1
  · intro w _
    exact ⟨rfl, rfl, rfl, rfl, rfl, rfl, rfl, rfl, rfl, rfl, rfl, rfl, rfl⟩

/-- Witness for C1 (amended) on a one-record marker-free store. -/
theorem c1_amended_roundtrip_witness :
    stringifyWorkouts [wRun111] = .ok ([wRun111].map toStored) ∧
    deserializeBlob ([wRun111].map toStored) = [wRun111].map plainify :=
  ⟨(c1_amended_roundtrip [wRun111] (by decide) (by decide)).1,
   (c1_amended_roundtrip [wRun111] (by decide) (by decide)).2.1⟩

/-- Counterexample to C1 as stated: the record restored from the
serialization of a Running record is a plain object — its prototype is the
base `Object`, not `Running` (and not `Cycling`), so it does not behave as
its original variant for kind-specific (prototype-method) access; its
`date` has also become a string. -/
theorem c1_counterexample_prototype_lost :
    deserializeBlob [toStored wRun111] = [plainify wRun111] ∧
    wRun111.proto = .running ∧
    (plainify wRun111).proto = .plainObject ∧
    (plainify wRun111).proto ≠ .running ∧
    (plainify wRun111).proto ≠ .cycling ∧
    (plainify wRun111).date ≠ wRun111.date :=
  ⟨rfl, rfl, rfl, by decide, by decide, by decide⟩

/-- C4 (amended): on hydration, an absent blob (`getItem` returns `null`,
`JSON.parse(null)` is `null`, falsy) is the normal no-prior-data case and
the Store stays empty; but a blob that is present and unparseable —
including the empty string — makes `JSON.parse` throw a SyntaxError that
nothing catches, so hydration crashes instead of reporting a format error
and completing. -/
theorem c4_amended_hydration (storage : Option RawBlob) (s : String) :
    (initialState storage).workouts = [] ∧
    (storage = none → getLocalStorage (initialState storage) = .ok (initialState storage)) ∧
    (storage = some (.malformed s) →
      getLocalStorage (initialState storage) = .error .parseError ∧
      completes (getLocalStorage (initialState storage)) = false) := by
  refine ⟨rfl, ?_, ?_⟩
  · rintro rfl; rfl
  · rintro rfl; exact ⟨rfl, rfl⟩

/-- Witness for C4 (amended): absent blob hydrates to the empty store;
unparseable blob throws. -/
theorem c4_amended_hydration_witness :
    getLocalStorage (initialState none) = .ok (initialState none) ∧
    getLocalStorage (initialState (some (.malformed "not-json"))) = .error .parseError :=
  ⟨(c4_amended_hydration none "").2.1 rfl,
   ((c4_amended_hydration (some (.malformed "not-json")) "not-json").2.2 rfl).1⟩

/-- Counterexample to C4 as stated: hydrating from a present-but-malformed
blob (here the empty string, which is also not the claimed "normal
no-prior-data case") does not complete — the uncaught SyntaxError
propagates out of `_getLocalStorage`. -/
theorem c4_counterexample_malformed_crashes :
    getLocalStorage (initialState (some (.malformed ""))) = .error .parseError ∧
    completes (getLocalStorage (initialState (some (.malformed "")))) = false :=
  ⟨rfl, rfl⟩

/-- C5 at its failing input: with marker-bearing records in the store
(`stMarked`), `_setLocalStorage` throws the raw
`TypeError: Converting circular structure to JSON` from `JSON.stringify` —
the opaque low-level error the source's own TODO comment records — instead
of a `SerializationError`; deleting record `"111"` reaches the save step
and ends in that uncaught TypeError, with the in-memory store already
spliced (intact, minus the deleted record), the list entry already removed
(not rolled back), and the previously stored blob unchanged. -/
theorem c5_save_throws_opaque_typeerror :
    setLocalStorage stMarked = .error .circularStructure ∧
    completes (setLocalStorage stMarked) = false ∧
    removeWorkout "111" stMarked =
      .persistFault
        { map := some 99, workouts := [wCyc222m], listEntries := ["222"],
          storage := some (.arr [toStored wRun111, toStored wCyc222]), nextHandle := 2 } :=
  ⟨rfl, rfl, rfl⟩

/-- C6 (amended): the id is the last ten decimal digits of the creation
clock's `Date.now()` reading, so ids are pairwise distinct whenever the
creation timestamps have pairwise distinct last-ten-digit suffixes; two
creations in the same millisecond (or whose timestamps share that suffix)
receive equal ids. -/
theorem c6_amended_id_uniqueness (inputs : List CreateInput)
    (h : inputs.Pairwise (fun a b => genId a.now.ms ≠ genId b.now.ms)) :
    (buildStore inputs).Pairwise (fun a b => a.id ≠ b.id) := by
  unfold buildStore
  refine List.Pairwise.map mkFromInput ?_ h
  intro a b hab
  rw [mkFromInput_id, mkFromInput_id]
  exact hab

/-- Witness for C6 (amended): creations at 111 ms and 222 ms get distinct
ids. -/
theorem c6_amended_id_uniqueness_witness :
    (buildStore [ci1, ci2]).Pairwise (fun a b => a.id ≠ b.id) :=
  c6_amended_id_uniqueness [ci1, ci2] (by decide)

/-- Counterexample to C6 as stated: two different records created in the
same millisecond (timestamp 111 ms) are both assigned id `"111"`, so a
store holding both holds a pair of records with equal ids. -/
theorem c6_counterexample_same_millisecond :
    (mkFromInput ci1).id = (mkFromInput ci1b).id ∧
    mkFromInput ci1 ≠ mkFromInput ci1b ∧
    ¬ (buildStore [ci1, ci1b]).Pairwise (fun a b => a.id ≠ b.id) := by
  refine ⟨rfl, ?_, ?_⟩
  · intro hcontra
    exact absurd (congrArg Workout.type hcontra) (by decide)
  · intro hp
    have := (List.pairwise_cons.mp hp).1 (mkFromInput ci1b) (by simp [buildStore])
    exact this rfl

/-- C10 (amended): after the id lookup succeeds on a record whose marker
was never set (e.g. one restored from persistence before the map placed
markers), `_removeWorkout` splices the record out of the in-memory
sequence AND removes its list entry (`workoutEl.remove()` runs before the
marker dereference), and only then faults on `workout.marker.remove()` —
so it never reaches re-serialization (the stored blob is untouched), but
list cleanup has already happened; conversely the handler can only run to
the save step (`ok` or `persistFault`) when the target record's marker is
set. -/
theorem c10_delete_faults_without_marker :
    (∀ st wid w, st.workouts.find? (fun x => x.id == wid) = some w → w.marker = none →
      removeWorkout wid st =
        .markerFault
          { st with
            workouts := st.workouts.eraseIdx (st.workouts.findIdx (fun x => x.id == wid))
            listEntries := st.listEntries.erase wid } ∧
      (st.workouts.eraseIdx (st.workouts.findIdx (fun x => x.id == wid))).length + 1 =
        st.workouts.length ∧
      ({ st with
         workouts := st.workouts.eraseIdx (st.workouts.findIdx (fun x => x.id == wid))
         listEntries := st.listEntries.erase wid } : AppState).storage = st.storage) ∧
    (∀ st wid st1,
      (removeWorkout wid st = .ok st1 ∨ removeWorkout wid st = .persistFault st1) →
      ∃ w, st.workouts.find? (fun x => x.id == wid) = some w ∧ w.marker ≠ none) := by
  constructor
  · intro st wid w hfind hmk
    have hlt : st.workouts.findIdx (fun x => x.id == wid) < st.workouts.length :=
      findIdx_lt_length_of_find?_eq_some hfind
    refine ⟨?_, ?_, rfl⟩
    · unfold removeWorkout
      rw [hfind]
      dsimp only
      rw [hmk]
    · rw [List.length_eraseIdx_of_lt hlt]
      omega
  · intro st wid st1 hcase
    rcases hfind : st.workouts.find? (fun x => x.id == wid) with _ | w
    · unfold removeWorkout at hcase
      rw [hfind] at hcase
      rcases hcase with hcase | hcase <;> exact absurd hcase (by simp)
    · refine ⟨w, hfind, ?_⟩
      unfold removeWorkout at hcase
      rw [hfind] at hcase
      dsimp only at hcase
      rcases hmk : w.marker with _ | m
      · rw [hmk] at hcase
        rcases hcase with hcase | hcase <;> exact absurd hcase (by simp)
      · simp [hmk]

/-- Witness for C10: deleting record `"111"` from the marker-free session
`stPlain` removes it from the sequence, leaves storage untouched, and
faults before the save step. -/
theorem c10_delete_faults_without_marker_witness :
    removeWorkout "111" stPlain =
      .markerFault
        { stPlain with
          workouts := stPlain.workouts.eraseIdx (stPlain.workouts.findIdx (fun x => x.id == "111"))
          listEntries := stPlain.listEntries.erase "111" } ∧
    (stPlain.workouts.eraseIdx (stPlain.workouts.findIdx (fun x => x.id == "111"))).length + 1 =
      stPlain.workouts.length ∧
    ({ stPlain with
       workouts := stPlain.workouts.eraseIdx (stPlain.workouts.findIdx (fun x => x.id == "111"))
       listEntries := stPlain.listEntries.erase "111" } : AppState).storage = stPlain.storage :=
  c10_delete_faults_without_marker.1 stPlain "111" wRun111 rfl rfl

/-- Counterexample to C10 as stated: the claim says a delete on a
marker-less record "never reaches re-serialization or list cleanup", but
`workoutEl.remove()` (script.js:205) runs before the marker dereference
faults (script.js:206).  Deleting the marker-less record `"111"` from
`stPlain` (list entries `["222", "111"]`) ends in the marker fault with the
record's list entry already removed — the faulted state's entries are
`["222"]`, no longer containing `"111"` — while the stored blob is indeed
untouched. -/
theorem c10_counterexample_list_cleanup_reached :
    removeWorkout "111" stPlain =
      .markerFault { stPlain with workouts := [wCyc222], listEntries := ["222"] } ∧
    stPlain.listEntries = ["222", "111"] ∧
    "111" ∈ stPlain.listEntries ∧
    "111" ∉ (["222"] : List String) :=
  ⟨rfl, rfl, by decide, by decide⟩

end Mapty
